import Mathlib

/-
Verification of the parking-lot service (src/parking_lot.py) against its
natural-language specification.

Modelling conventions of the shallow embedding:
* Timestamps are integers counting microseconds since the epoch — exactly the
  resolution of Python `datetime` values.  `timedelta.total_seconds()` divides
  the microsecond difference by 10^6; every comparison and division the code
  performs on such a value is folded into microseconds by scaling the other
  side with `usPerSec` (e.g. `elapsed_seconds < 900` becomes
  `elapsed_us < 900 * usPerSec`), which is exact.
* All fee values produced by the code are integers: the `Tariffs(int, Enum)`
  mixin coerces the per-unit rates through `int(...)`, and both `math.ceil`
  and `return 0` yield ints, so the `fee` field is `Option ℤ`.
* The global dict `PARKED_CARS` is a list of (plate, record) pairs threaded
  through the endpoint functions; `dictSet` mirrors Python dict assignment
  (update in place for an existing key, append for a fresh key).
* Python exceptions become `Except ApiErr`; `ApiErr` distinguishes the
  application's own exception classes (which have `@app.exception_handler`
  registrations) from unhandled Python runtime errors (`keyError`,
  `typeError`, `attributeError`), which surface as a crash (HTTP 500).
* A value stored under the `start` key of a record is either an ISO string
  (the seeded entries of `PARKED_CARS`) or a `datetime` object (entries
  written by `add_car` and `remove_car`); `StartVal` keeps that distinction
  because `remove_car` feeds the stored value to `dateutil.parser.isoparse`,
  which only accepts strings.
-/

/-! ## Time scale -/

/-- Microseconds per second: the factor between the microsecond timestamps of
the embedding and the seconds in which the source's constants are written. -/
def usPerSec : ℤ := 1000000

/-! ## Configuration constants (src/parking_lot.py lines 17-23), in the
units the source declares them (seconds, currency units per billing unit). -/

def PARKING_LOT_CAPACITY : ℤ := 14

def ACCEPTED_TIME_DELAY : ℤ := 900

def FREE_PARKING_TIME : ℤ := 900

/-- `HOURLY_TARIFF = 2.5` (line 20): a float, kept as the exact rational. -/
def HOURLY_TARIFF : ℚ := mkRat 5 2

/-- `DAILY_TARIFF = 10` (line 21). -/
def DAILY_TARIFF : ℚ := 10

def SECONDS_IN_HOUR : ℤ := 3600

def SECONDS_IN_DAY : ℤ := 86400

/-! ## Tariff enums (lines 26-33) -/

/-- `class TariffName(str, Enum)` (lines 26-28).  The stored tariff of the two
seeded cars is the plain string `'hourly'` / `'daily'`; since a `str`-mixin
enum member compares equal to its string value, strings and members collapse
to this one type in the embedding. -/
inductive TariffName
  | hourly
  | daily
deriving DecidableEq, Repr

/-- Python `int(x)` applied to a float: truncation toward zero, written on
the numerator/denominator representation of the rational. -/
def pyint (q : ℚ) : ℤ := Int.sign q.num * ((q.num.natAbs / q.den : ℕ) : ℤ)

/-- Python `math.ceil` of an exact quotient `a / b` with `b > 0`, as an
integer ceiling division. -/
def pyceilDiv (a b : ℤ) : ℤ := -((-a).fdiv b)

/-- `class Tariffs(int, Enum): hourly = HOURLY_TARIFF` (lines 31-33).  The
`int` mixin coerces each member value through `int(...)`, so the member
`Tariffs.hourly` is `int(2.5) = 2`: the declared rate 2.5 is silently
truncated. -/
def Tariffs.hourly : ℤ := pyint HOURLY_TARIFF

/-- `Tariffs.daily = int(10) = 10` (line 33). -/
def Tariffs.daily : ℤ := pyint DAILY_TARIFF

/-! ## Errors -/

/-- The outcomes by which an endpoint can abort.  The first eight mirror the
exception classes of lines 36-71; `keyError` is the uncaught `KeyError` of
`PARKED_CARS[car_id]` in `get_car` (line 152), `typeError` the uncaught
`TypeError` that `dateutil.parser.isoparse` raises on a non-string argument
(line 192), and `attributeError` the uncaught `AttributeError` of
`parked_car.start.replace(...)` when `start` is `None` (line 166). -/
inductive ApiErr
  | carAlreadyRemoved
  | invalidLocation
  | locationNotAvailable
  | startDate
  | carIdExists
  | carIdDoesNotExist
  | carIdPattern
  | carIdNull
  | keyError
  | typeError
  | attributeError
deriving DecidableEq, Repr

/-- Whether the error has an `@app.exception_handler` registration
(lines 108-143) and is therefore reported as a typed 422 response; the three
raw Python runtime errors have none and escape as a crash (HTTP 500). -/
def ApiErr.handled : ApiErr → Bool
  | .carAlreadyRemoved => true
  | .invalidLocation => true
  | .locationNotAvailable => true
  | .startDate => true
  | .carIdExists => true
  | .carIdDoesNotExist => true
  | .carIdPattern => true
  | .carIdNull => true
  | .keyError => false
  | .typeError => false
  | .attributeError => false

/-- Injective encoding of `Except` into `Sum`, used only to derive decidable
equality of endpoint results. -/
def exceptToSum {ε α : Type} : Except ε α → ε ⊕ α
  | .error e => .inl e
  | .ok a => .inr a

instance {ε α : Type} [DecidableEq ε] [DecidableEq α] : DecidableEq (Except ε α) :=
  fun a b =>
    decidable_of_iff (exceptToSum a = exceptToSum b)
      (by cases a <;> cases b <;> simp [exceptToSum])

/-! ## Stored start values and `isoparse` -/

/-- A value stored under the `start` key of a `PARKED_CARS` record: either an
ISO-format string denoting instant `t` (the seeded entries, lines 14-15) or a
`datetime` object (entries written by `add_car` line 179 and `remove_car`
line 194). -/
inductive StartVal
  | isoStr (t : ℤ)
  | pyDt (t : ℤ)
deriving DecidableEq, Repr

/-- The instant a stored start value denotes, regardless of representation. -/
def StartVal.instant : StartVal → ℤ
  | .isoStr t => t
  | .pyDt t => t

/-- Whether the stored start value is a string. -/
def StartVal.isIsoStr : StartVal → Bool
  | .isoStr _ => true
  | .pyDt _ => false

/-- Modelled dependency `dateutil.parser.isoparse` (called at line 192):
parses an ISO string into a `datetime`; applied to any non-string value, such
as a `datetime` object, it raises `TypeError` (its first step takes `len` of
the argument). -/
def isoparse : StartVal → Except ApiErr ℤ
  | .isoStr t => .ok t
  | .pyDt _ => .error .typeError

/-! ## Records and state -/

/-- Shape of a `PARKED_CARS` entry, the dict literal written at lines 14-15,
179 and 194: keys `status`, `tariff`, `location`, `start`, `end`, `fee`.
(`end` is a Lean keyword, hence the field name `end_`.) -/
structure CarRecord where
  status : String
  tariff : Option TariffName
  location : ℤ
  start : StartVal
  end_ : Option ℤ
  fee : Option ℤ
deriving DecidableEq, Repr

/-- The pydantic request model `ParkedCar` (lines 75-90) as the endpoint
functions receive it: every field is optional except `location`
(`car_id`, `tariff`, `start`, `end`, `fee` all admit `None`). -/
structure ParkedCar where
  car_id : Option String := none
  status : Option String := none
  tariff : Option TariffName := none
  location : ℤ := 0
  start : Option ℤ := none
  end_ : Option ℤ := none
  fee : Option ℤ := none
deriving DecidableEq, Repr

/-- The session table: the global dict `PARKED_CARS`, as a key-ordered
association list. -/
abbrev ParkingState := List (String × CarRecord)

/-- Python dict assignment `d[k] = v`: overwrite in place when the key is
present, append otherwise. -/
def dictSet (m : ParkingState) (k : String) (v : CarRecord) : ParkingState :=
  if (m.lookup k).isSome then
    m.map fun p => if p.1 = k then (k, v) else p
  else
    m ++ [(k, v)]

/-- The availability check of line 163: `parked_car.location in
[x.get('location') for x in PARKED_CARS.values()]` — note it ranges over all
records, removed ones included. -/
def occupiedLoc (m : ParkingState) (loc : ℤ) : Bool :=
  m.any fun p => p.2.location == loc

/-- Membership in the character class `[A-Za-z0-9]` of the plate pattern
(line 175). -/
def isPlateChar (c : Char) : Bool :=
  ('A' ≤ c && c ≤ 'Z') || ('a' ≤ c && c ≤ 'z') || ('0' ≤ c && c ≤ '9')

/-- `re.fullmatch(r"[A-Za-z0-9]+", s)` (lines 175-176): at least one
character, all in the class — phrased on the character list of the string. -/
def plateFullmatch (s : String) : Bool :=
  !s.toList.isEmpty && s.toList.all isPlateChar

/-! ## The seeded state (lines 13-16) -/

/-- Instant of the ISO string `'2022-06-25T17:21:33.913233'` (line 14), as
Unix microseconds. -/
def startX773HY97 : ℤ := 1656177693913233

/-- Instant of the ISO string `'2022-06-25T17:23:24.428268'` (line 15), as
Unix microseconds. -/
def startG737TT97 : ℤ := 1656177804428268

/-- The seeded record for plate `X773HY97` (line 14): parked, hourly tariff,
location 7, `start` stored as an ISO string. -/
def carX773HY97 : CarRecord :=
  { status := "parked", tariff := some TariffName.hourly, location := 7,
    start := .isoStr startX773HY97, end_ := none, fee := none }

/-- The seeded record for plate `G737TT97` (line 15): parked, daily tariff,
location 14, `start` stored as an ISO string. -/
def carG737TT97 : CarRecord :=
  { status := "parked", tariff := some TariffName.daily, location := 14,
    start := .isoStr startG737TT97, end_ := none, fee := none }

/-- The initial value of the global `PARKED_CARS` dict (lines 13-16). -/
def PARKED_CARS : ParkingState :=
  [("X773HY97", carX773HY97), ("G737TT97", carG737TT97)]

/-! ## Fee computation (lines 92-105) -/

/-- `ParkedCar.get_exit_fee` (lines 92-105).  `start.replace(tzinfo=None)`
is the identity here (timestamps are already naive); the microsecond value
`time_spent_when_parked` stands for `(end - start).total_seconds()`, with
the comparison against `FREE_PARKING_TIME` and the divisions by
`SECONDS_IN_HOUR` / `SECONDS_IN_DAY` scaled by `usPerSec` accordingly.
Below the grace threshold the fee is 0; otherwise the Python `match` on the
tariff value bills ceiling-rounded units at the (truncated) `Tariffs` rate —
and when the tariff is `None` no case matches, so the function falls through
and returns `None`. -/
def get_exit_fee (start end_ : ℤ) (tariff : Option TariffName) : Option ℤ :=
  let time_spent_when_parked : ℤ := end_ - start
  if time_spent_when_parked < FREE_PARKING_TIME * usPerSec then
    some 0
  else
    match tariff with
    | some TariffName.hourly =>
        some (pyceilDiv time_spent_when_parked (SECONDS_IN_HOUR * usPerSec) * Tariffs.hourly)
    | some TariffName.daily =>
        some (pyceilDiv time_spent_when_parked (SECONDS_IN_DAY * usPerSec) * Tariffs.daily)
    | none => none

/-! ## Endpoints (lines 145-196) -/

/-- `get_cars` (lines 145-147): returns the whole table. -/
def get_cars (cars : ParkingState) : ParkingState := cars

/-- `get_car` (lines 150-152): `return PARKED_CARS[car_id]` — indexing with
a missing key raises a bare `KeyError`, for which no exception handler is
registered. -/
def get_car (cars : ParkingState) (car_id : String) : Except ApiErr CarRecord :=
  match cars.lookup car_id with
  | some entry => .ok entry
  | none => .error .keyError

/-- `add_car` (lines 156-180), with the global dict and `datetime.now()`
made explicit.  The checks in source order: `car_id is None` (note that the
empty string is not `None`); location bounds; availability; then
`parked_car.start.replace(tzinfo=None)` (an `AttributeError` crash when
`start` is `None`); the delay window `present - start > ACCEPTED_TIME_DELAY`;
key uniqueness; the plate pattern.  On success the new record is written
with `start` kept as the `datetime` object `parked_car.start`. -/
def add_car (cars : ParkingState) (parked_car : ParkedCar) (present : ℤ) :
    Except ApiErr (ParkingState × CarRecord) :=
  match parked_car.car_id with
  | none => .error .carIdNull
  | some cid =>
    if parked_car.location ≤ 0 ∨ parked_car.location > PARKING_LOT_CAPACITY then
      .error .invalidLocation
    else if occupiedLoc cars parked_car.location then
      .error .locationNotAvailable
    else
      match parked_car.start with
      | none => .error .attributeError
      | some start_date =>
        if present - start_date > ACCEPTED_TIME_DELAY * usPerSec then
          .error .startDate
        else if (cars.lookup cid).isSome then
          .error .carIdExists
        else if !plateFullmatch cid then
          .error .carIdPattern
        else
          let r : CarRecord :=
            { status := "parked", tariff := parked_car.tariff,
              location := parked_car.location, start := .pyDt start_date,
              end_ := none, fee := none }
          .ok (dictSet cars cid r, r)

/-- `remove_car` (lines 183-196), with the global dict and `datetime.now()`
made explicit.  Missing key and already-removed checks come first; then the
stored `start` value goes through `isoparse` (a `TypeError` crash when it is
a `datetime`, i.e. for every record written by `add_car`).  The replacement
record keeps the stored tariff but takes its `location` from the request
body `parked_car`. -/
def remove_car (cars : ParkingState) (car_id : String) (parked_car : ParkedCar)
    (now : ℤ) : Except ApiErr (ParkingState × CarRecord) :=
  match cars.lookup car_id with
  | none => .error .carIdDoesNotExist
  | some entry =>
    if entry.status = "removed" then
      .error .carAlreadyRemoved
    else
      match isoparse entry.start with
      | .error e => .error e
      | .ok start =>
        let r : CarRecord :=
          { status := "removed", tariff := entry.tariff,
            location := parked_car.location, start := .pyDt start,
            end_ := some now, fee := get_exit_fee start now entry.tariff }
        .ok (dictSet cars car_id r, r)

/-! ## Reachability -/

/-- One successful state-changing operation: an `add_car` or `remove_car`
call that returns normally (a raised exception leaves the global dict
untouched, since every raise precedes the dict assignment). -/
inductive ParkingStep : ParkingState → ParkingState → Prop
  | add (cars : ParkingState) (pc : ParkedCar) (present : ℤ)
      (cars' : ParkingState) (r : CarRecord)
      (h : add_car cars pc present = .ok (cars', r)) : ParkingStep cars cars'
  | remove (cars : ParkingState) (cid : String) (pc : ParkedCar) (now : ℤ)
      (cars' : ParkingState) (r : CarRecord)
      (h : remove_car cars cid pc now = .ok (cars', r)) : ParkingStep cars cars'

/-- States reachable from the seeded `PARKED_CARS` by any sequence of
successful operations. -/
inductive ReachableState : ParkingState → Prop
  | init : ReachableState PARKED_CARS
  | step {s s' : ParkingState} (hr : ReachableState s) (hs : ParkingStep s s') :
      ReachableState s'

/-- The induction invariant for the session-field claim: every record is
either parked with `fee` and `end` both absent, or removed with `fee` and
`end` both present; and every record whose `start` is still an ISO string
(a seeded record never yet removed) has a non-`None` tariff. -/
def strongInv (s : ParkingState) : Prop :=
  ∀ p ∈ s,
    ((p.2.fee = none ∧ p.2.end_ = none ∧ p.2.status = "parked")
      ∨ (p.2.fee ≠ none ∧ p.2.end_ ≠ none ∧ p.2.status = "removed"))
    ∧ (p.2.start.isIsoStr = true → p.2.tariff ≠ none)

/-! ## Helper lemmas -/

theorem mem_dictSet {m : ParkingState} {k : String} {v : CarRecord}
    {p : String × CarRecord} (hp : p ∈ dictSet m k v) : p = (k, v) ∨ p ∈ m := by
  unfold dictSet at hp
  by_cases h : (m.lookup k).isSome
  · rw [if_pos h] at hp
    rcases List.mem_map.1 hp with ⟨q, hq, hqe⟩
    by_cases hk : q.1 = k
    · rw [if_pos hk] at hqe
      exact Or.inl hqe.symm
    · rw [if_neg hk] at hqe
      exact Or.inr (hqe ▸ hq)
  · rw [if_neg h] at hp
    rcases List.mem_append.1 hp with h1 | h1
    · exact Or.inr h1
    · exact Or.inl (by simpa using h1)

theorem lookup_keyUpdate (t : ParkingState) (k k' : String) (v : CarRecord)
    (h : k' ≠ k) :
    (t.map fun p => if p.1 = k then (k, v) else p).lookup k' = t.lookup k' := by
  induction t with
  | nil => rfl
  | cons a t ih =>
    obtain ⟨a1, a2⟩ := a
    by_cases ha : a1 = k
    · subst ha
      have hne : (k' == a1) = false := beq_eq_false_iff_ne.2 h
      rw [List.map_cons, if_pos rfl]
      simp [List.lookup, hne, ih]
    · rw [List.map_cons, if_neg ha]
      cases hb : (k' == a1) with
      | true => simp [List.lookup, hb]
      | false => simp [List.lookup, hb, ih]

theorem lookup_append_singleton (t : ParkingState) (k k' : String) (v : CarRecord)
    (h : k' ≠ k) :
    (t ++ [(k, v)]).lookup k' = t.lookup k' := by
  induction t with
  | nil =>
    have hne : (k' == k) = false := beq_eq_false_iff_ne.2 h
    simp [List.lookup, hne]
  | cons a t ih =>
    obtain ⟨a1, a2⟩ := a
    cases hb : (k' == a1) with
    | true => simp [List.lookup, hb]
    | false => simp [List.lookup, hb, ih]

theorem lookup_dictSet_ne (m : ParkingState) (k k' : String) (v : CarRecord)
    (h : k' ≠ k) : (dictSet m k v).lookup k' = m.lookup k' := by
  unfold dictSet
  by_cases hs : (m.lookup k).isSome
  · rw [if_pos hs]
    exact lookup_keyUpdate m k k' v h
  · rw [if_neg hs]
    exact lookup_append_singleton m k k' v h

theorem get_exit_fee_ne_none (s e : ℤ) (tf : TariffName) :
    get_exit_fee s e (some tf) ≠ none := by
  unfold get_exit_fee
  by_cases h : e - s < FREE_PARKING_TIME * usPerSec
  · simp [h]
  · cases tf <;> simp [h]

theorem isoparse_ok {sv : StartVal} {t : ℤ} (h : isoparse sv = .ok t) :
    sv = .isoStr t := by
  cases sv with
  | isoStr u =>
    simp only [isoparse, Except.ok.injEq] at h
    rw [h]
  | pyDt u => simp [isoparse] at h

theorem add_car_ok {cars : ParkingState} {pc : ParkedCar} {present : ℤ}
    {cars' : ParkingState} {r : CarRecord}
    (h : add_car cars pc present = .ok (cars', r)) :
    ∃ cid sd, pc.car_id = some cid ∧ pc.start = some sd
      ∧ r = { status := "parked", tariff := pc.tariff, location := pc.location,
              start := .pyDt sd, end_ := none, fee := none }
      ∧ cars' = dictSet cars cid r := by
  unfold add_car at h
  cases hc : pc.car_id with
  | none => rw [hc] at h; simp at h
  | some cid =>
    rw [hc] at h
    dsimp only at h
    cases hs : pc.start with
    | none =>
      rw [hs] at h
      dsimp only at h
      split_ifs at h
    | some sd =>
      rw [hs] at h
      dsimp only at h
      split_ifs at h
      simp only [Except.ok.injEq, Prod.mk.injEq] at h
      exact ⟨cid, sd, rfl, rfl, h.2.symm, by rw [← h.1, h.2]⟩

theorem remove_car_ok {cars : ParkingState} {cid : String} {pc : ParkedCar}
    {now : ℤ} {cars' : ParkingState} {r : CarRecord}
    (h : remove_car cars cid pc now = .ok (cars', r)) :
    ∃ entry strt, cars.lookup cid = some entry ∧ entry.status ≠ "removed"
      ∧ entry.start = .isoStr strt
      ∧ r = { status := "removed", tariff := entry.tariff,
              location := pc.location, start := .pyDt strt, end_ := some now,
              fee := get_exit_fee strt now entry.tariff }
      ∧ cars' = dictSet cars cid r := by
  unfold remove_car at h
  cases hl : cars.lookup cid with
  | none => rw [hl] at h; simp at h
  | some entry =>
    rw [hl] at h
    dsimp only at h
    split_ifs at h with hst
    cases hi : isoparse entry.start with
    | error e => rw [hi] at h; simp at h
    | ok strt =>
      rw [hi] at h
      simp only [Except.ok.injEq, Prod.mk.injEq] at h
      exact ⟨entry, strt, rfl, hst, isoparse_ok hi, h.2.symm, by rw [← h.1, h.2]⟩

theorem mem_of_lookup_eq_some {m : ParkingState} {k : String} {v : CarRecord}
    (h : m.lookup k = some v) : (k, v) ∈ m := by
  induction m with
  | nil => simp [List.lookup] at h
  | cons a t ih =>
    obtain ⟨a1, a2⟩ := a
    cases hb : (k == a1) with
    | true =>
      have hk : a1 = k := (beq_iff_eq.1 hb).symm
      simp only [List.lookup, hb] at h
      simp only [Option.some.injEq] at h
      subst hk
      subst h
      exact List.mem_cons_self _ _
    | false =>
      simp only [List.lookup, hb] at h
      exact List.mem_cons_of_mem _ (ih h)

theorem strongInv_init : strongInv PARKED_CARS := by
  unfold strongInv
  decide

theorem strongInv_preserved {s s' : ParkingState} (hs : strongInv s)
    (hstep : ParkingStep s s') : strongInv s' := by
  cases hstep with
  | add pc present cars' r h =>
    rcases add_car_ok h with ⟨cid, sd, _hc, _hsd, hr, hcars⟩
    subst hcars
    intro p hp
    rcases mem_dictSet hp with hpe | hpm
    · subst hpe
      subst hr
      refine ⟨Or.inl ⟨rfl, rfl, rfl⟩, ?_⟩
      intro hiso
      simp [StartVal.isIsoStr] at hiso
    · exact hs p hpm
  | remove cid pc now cars' r h =>
    rcases remove_car_ok h with ⟨entry, strt, hl, _hst, hstart, hr, hcars⟩
    subst hcars
    intro p hp
    rcases mem_dictSet hp with hpe | hpm
    · subst hpe
      have hinv := hs (cid, entry) (mem_of_lookup_eq_some hl)
      have htar : entry.tariff ≠ none := hinv.2 (by rw [hstart]; rfl)
      rcases Option.ne_none_iff_exists'.1 htar with ⟨tf, htf⟩
      subst hr
      refine ⟨Or.inr ⟨?_, by simp, rfl⟩, ?_⟩
      · intro hfee
        exact absurd (by simpa [htf] using hfee) (get_exit_fee_ne_none strt now tf)
      · intro hiso
        simp [StartVal.isIsoStr] at hiso
    · exact hs p hpm

theorem strongInv_reachable {s : ParkingState} (h : ReachableState s) :
    strongInv s := by
  induction h with
  | init => exact strongInv_init
  | step hr hstep ih => exact strongInv_preserved ih hstep

theorem lookup_dictSet_self (m : ParkingState) (k : String) (v : CarRecord) :
    (dictSet m k v).lookup k = some v := by
  unfold dictSet
  by_cases hs : (m.lookup k).isSome
  · rw [if_pos hs]
    induction m with
    | nil => simp [List.lookup] at hs
    | cons a t ih =>
      obtain ⟨a1, a2⟩ := a
      by_cases ha : a1 = k
      · subst ha
        rw [List.map_cons, if_pos (show (a1, a2).1 = a1 from rfl)]
        simp [List.lookup]
      · have hb : (k == a1) = false := beq_eq_false_iff_ne.2 (fun he => ha he.symm)
        rw [List.map_cons, if_neg ha]
        have hs' : (t.lookup k).isSome := by
          simpa [List.lookup, hb] using hs
        simp [List.lookup, hb, ih hs']
  · rw [if_neg hs]
    induction m with
    | nil => simp [List.lookup]
    | cons a t ih =>
      obtain ⟨a1, a2⟩ := a
      cases hb : (k == a1) with
      | true => simp [List.lookup, hb] at hs
      | false =>
        simp only [List.lookup, hb] at hs ⊢
        exact ih hs

theorem add_car_eq_carIdNull {cars : ParkingState} {pc : ParkedCar} {present : ℤ}
    (hcid : pc.car_id = none) :
    add_car cars pc present = .error .carIdNull := by
  unfold add_car
  rw [hcid]

theorem add_car_eq_invalidLocation {cars : ParkingState} {pc : ParkedCar}
    {present : ℤ} {cid : String} (hcid : pc.car_id = some cid)
    (hloc : pc.location ≤ 0 ∨ pc.location > PARKING_LOT_CAPACITY) :
    add_car cars pc present = .error .invalidLocation := by
  unfold add_car
  rw [hcid]
  dsimp only
  rw [if_pos hloc]

theorem add_car_eq_locationNotAvailable {cars : ParkingState} {pc : ParkedCar}
    {present : ℤ} {cid : String} (hcid : pc.car_id = some cid)
    (hloc : ¬(pc.location ≤ 0 ∨ pc.location > PARKING_LOT_CAPACITY))
    (hocc : occupiedLoc cars pc.location = true) :
    add_car cars pc present = .error .locationNotAvailable := by
  unfold add_car
  rw [hcid]
  dsimp only
  rw [if_neg hloc, if_pos hocc]

theorem add_car_eq_startDate {cars : ParkingState} {pc : ParkedCar}
    {present : ℤ} {cid : String} {sd : ℤ} (hcid : pc.car_id = some cid)
    (hloc : ¬(pc.location ≤ 0 ∨ pc.location > PARKING_LOT_CAPACITY))
    (hocc : occupiedLoc cars pc.location = false)
    (hsd : pc.start = some sd)
    (ht : present - sd > ACCEPTED_TIME_DELAY * usPerSec) :
    add_car cars pc present = .error .startDate := by
  unfold add_car
  rw [hcid]
  dsimp only
  rw [if_neg hloc, if_neg (by simp [hocc]), hsd]
  dsimp only
  rw [if_pos ht]

theorem add_car_eq_carIdExists {cars : ParkingState} {pc : ParkedCar}
    {present : ℤ} {cid : String} {sd : ℤ} (hcid : pc.car_id = some cid)
    (hloc : ¬(pc.location ≤ 0 ∨ pc.location > PARKING_LOT_CAPACITY))
    (hocc : occupiedLoc cars pc.location = false)
    (hsd : pc.start = some sd)
    (ht : ¬ present - sd > ACCEPTED_TIME_DELAY * usPerSec)
    (hdup : (cars.lookup cid).isSome = true) :
    add_car cars pc present = .error .carIdExists := by
  unfold add_car
  rw [hcid]
  dsimp only
  rw [if_neg hloc, if_neg (by simp [hocc]), hsd]
  dsimp only
  rw [if_neg ht, if_pos hdup]

theorem add_car_eq_carIdPattern {cars : ParkingState} {pc : ParkedCar}
    {present : ℤ} {cid : String} {sd : ℤ} (hcid : pc.car_id = some cid)
    (hloc : ¬(pc.location ≤ 0 ∨ pc.location > PARKING_LOT_CAPACITY))
    (hocc : occupiedLoc cars pc.location = false)
    (hsd : pc.start = some sd)
    (ht : ¬ present - sd > ACCEPTED_TIME_DELAY * usPerSec)
    (hdup : (cars.lookup cid).isSome = false)
    (hplate : plateFullmatch cid = false) :
    add_car cars pc present = .error .carIdPattern := by
  unfold add_car
  rw [hcid]
  dsimp only
  rw [if_neg hloc, if_neg (by simp [hocc]), hsd]
  dsimp only
  rw [if_neg ht, if_neg (by simp [hdup]), if_pos (by simp [hplate])]

theorem add_car_eq_ok {cars : ParkingState} {pc : ParkedCar}
    {present : ℤ} {cid : String} {sd : ℤ} (hcid : pc.car_id = some cid)
    (hloc : ¬(pc.location ≤ 0 ∨ pc.location > PARKING_LOT_CAPACITY))
    (hocc : occupiedLoc cars pc.location = false)
    (hsd : pc.start = some sd)
    (ht : ¬ present - sd > ACCEPTED_TIME_DELAY * usPerSec)
    (hdup : (cars.lookup cid).isSome = false)
    (hplate : plateFullmatch cid = true) :
    add_car cars pc present =
      .ok (dictSet cars cid
             { status := "parked", tariff := pc.tariff, location := pc.location,
               start := .pyDt sd, end_ := none, fee := none },
           { status := "parked", tariff := pc.tariff, location := pc.location,
             start := .pyDt sd, end_ := none, fee := none }) := by
  unfold add_car
  rw [hcid]
  dsimp only
  rw [if_neg hloc, if_neg (by simp [hocc]), hsd]
  dsimp only
  rw [if_neg ht, if_neg (by simp [hdup]), if_neg (by simp [hplate])]

theorem add_car_classify {cars : ParkingState} {pc : ParkedCar}
    {present : ℤ} {cid : String} (hcid : pc.car_id = some cid)
    (hloc : ¬(pc.location ≤ 0 ∨ pc.location > PARKING_LOT_CAPACITY)) :
    add_car cars pc present = .error .locationNotAvailable
    ∨ add_car cars pc present = .error .attributeError
    ∨ add_car cars pc present = .error .startDate
    ∨ add_car cars pc present = .error .carIdExists
    ∨ add_car cars pc present = .error .carIdPattern
    ∨ ∃ cars' r, add_car cars pc present = .ok (cars', r) := by
  by_cases hocc : occupiedLoc cars pc.location
  · exact Or.inl (add_car_eq_locationNotAvailable hcid hloc hocc)
  · cases hsd : pc.start with
    | none =>
      refine Or.inr (Or.inl ?_)
      unfold add_car
      rw [hcid]
      dsimp only
      rw [if_neg hloc, if_neg (by simp [Bool.not_eq_true] at hocc; simp [hocc]), hsd]
    | some sd =>
      rw [Bool.not_eq_true] at hocc
      by_cases ht : present - sd > ACCEPTED_TIME_DELAY * usPerSec
      · exact Or.inr (Or.inr (Or.inl (add_car_eq_startDate hcid hloc hocc hsd ht)))
      · by_cases hdup : (cars.lookup cid).isSome
        · exact Or.inr (Or.inr (Or.inr (Or.inl
            (add_car_eq_carIdExists hcid hloc hocc hsd ht hdup))))
        · rw [Bool.not_eq_true] at hdup
          cases hplate : plateFullmatch cid with
          | false =>
            exact Or.inr (Or.inr (Or.inr (Or.inr (Or.inl
              (add_car_eq_carIdPattern hcid hloc hocc hsd ht hdup hplate)))))
          | true =>
            exact Or.inr (Or.inr (Or.inr (Or.inr (Or.inr
              ⟨_, _, add_car_eq_ok hcid hloc hocc hsd ht hdup hplate⟩))))

theorem get_exit_fee_shift (t d : ℤ) (tf : Option TariffName) :
    get_exit_fee t (t + d) tf = get_exit_fee 0 d tf := by
  unfold get_exit_fee
  have h1 : t + d - t = d := by omega
  have h2 : d - (0 : ℤ) = d := by omega
  rw [h1, h2]

/-! ## Claims -/

/-- Claim C1.  The spec asserts `get_exit_fee(hourly, t, t+899s) = 0`,
`= 1 * 2.5` at `t+901s` and `= 2 * 2.5` at `t+3601s`.  The code does round
up to whole hours past the 900 s grace period, but bills them at
`Tariffs.hourly = int(2.5) = 2`, not 2.5: the fees actually produced are 0,
`1 * 2 = 2` and `2 * 2 = 4`.  This theorem evaluates the code at the spec's
reference inputs, exhibiting the divergence at 901 s and 3601 s. -/
theorem C1_hourly_fee_uses_truncated_rate (t : ℤ) :
    get_exit_fee t (t + 899 * usPerSec) (some TariffName.hourly) = some 0
    ∧ get_exit_fee t (t + 901 * usPerSec) (some TariffName.hourly)
        = some (1 * Tariffs.hourly)
    ∧ get_exit_fee t (t + 3601 * usPerSec) (some TariffName.hourly)
        = some (2 * Tariffs.hourly)
    ∧ Tariffs.hourly = 2 := by
  refine ⟨?_, ?_, ?_, by decide⟩ <;> rw [get_exit_fee_shift] <;> decide

/-- Claim C2.  The spec's end-to-end scenario: starting `"ABC123"` at slot 3
succeeds and occupies the slot, a second start at slot 3 fails with
`SlotUnavailable` — both hold on the code.  But the final step diverges:
`end_session("ABC123", arrival+1800s)` does not succeed with fee 2.5.
`add_car` stored `start` as a `datetime`, and `remove_car` feeds that value
to `dateutil.parser.isoparse`, which raises an unhandled `TypeError`
(a 500 crash, `ApiErr.handled = false`).  Moreover, even with a parseable
start the fee would have been `ceil(1800/3600) * Tariffs.hourly = 1 * 2 = 2`
because of the `int`-Enum truncation of the 2.5 rate (last conjunct). -/
theorem C2_scenario_end_session_crashes :
    add_car PARKED_CARS
        { car_id := some "ABC123", tariff := some TariffName.hourly, location := 3,
          start := some 1656200000000000 } 1656200000000000
      = .ok (PARKED_CARS ++
               [("ABC123",
                 { status := "parked", tariff := some TariffName.hourly,
                   location := 3, start := .pyDt 1656200000000000,
                   end_ := none, fee := none })],
             { status := "parked", tariff := some TariffName.hourly, location := 3,
               start := .pyDt 1656200000000000, end_ := none, fee := none })
    ∧ occupiedLoc (PARKED_CARS ++
        [("ABC123",
          { status := "parked", tariff := some TariffName.hourly, location := 3,
            start := .pyDt 1656200000000000, end_ := none, fee := none })]) 3 = true
    ∧ add_car (PARKED_CARS ++
        [("ABC123",
          { status := "parked", tariff := some TariffName.hourly, location := 3,
            start := .pyDt 1656200000000000, end_ := none, fee := none })])
        { car_id := some "DEF456", tariff := some TariffName.hourly, location := 3,
          start := some 1656200000000000 } 1656200000000000
      = .error .locationNotAvailable
    ∧ remove_car (PARKED_CARS ++
        [("ABC123",
          { status := "parked", tariff := some TariffName.hourly, location := 3,
            start := .pyDt 1656200000000000, end_ := none, fee := none })])
        "ABC123"
        { car_id := some "ABC123", tariff := some TariffName.hourly, location := 3,
          start := some 1656200000000000 }
        (1656200000000000 + 1800 * usPerSec)
      = .error .typeError
    ∧ ApiErr.handled .typeError = false
    ∧ pyceilDiv (1800 * usPerSec) (SECONDS_IN_HOUR * usPerSec) * Tariffs.hourly = 2 := by
  decide

/-- Claim C3.  In every state reachable from the seeded `PARKED_CARS` by
successful `add_car` / `remove_car` calls, a record's `fee` and `end` are
both `None` exactly when its status is `'parked'`; equivalently, every
parked record has neither field, and every removed record has both a
departure time and a non-absent fee. -/
theorem C3_fields_absent_iff_parked (s : ParkingState) (hs : ReachableState s)
    (p : String × CarRecord) (hp : p ∈ s) :
    ((p.2.fee = none ∧ p.2.end_ = none) ↔ p.2.status = "parked")
    ∧ (p.2.status = "parked" → p.2.fee = none ∧ p.2.end_ = none)
    ∧ (p.2.status = "removed" → p.2.fee ≠ none ∧ p.2.end_ ≠ none) := by
  rcases (strongInv_reachable hs p hp).1 with ⟨hf, he, hst⟩ | ⟨hf, he, hst⟩
  · refine ⟨⟨fun _ => hst, fun _ => ⟨hf, he⟩⟩, fun _ => ⟨hf, he⟩, fun hrm => ?_⟩
    rw [hst] at hrm
    exact absurd hrm (by decide)
  · refine ⟨⟨fun hb => absurd hb.1 hf, fun hpk => ?_⟩, fun hpk => ?_, fun _ => ⟨hf, he⟩⟩
    · rw [hst] at hpk
      exact absurd hpk (by decide)
    · rw [hst] at hpk
      exact absurd hpk (by decide)

/-- Witness for C3: the invariant instantiated at the seeded state and its
first record. -/
theorem C3_fields_absent_iff_parked_witness :
    ((carX773HY97.fee = none ∧ carX773HY97.end_ = none)
       ↔ carX773HY97.status = "parked")
    ∧ (carX773HY97.status = "parked"
        → carX773HY97.fee = none ∧ carX773HY97.end_ = none)
    ∧ (carX773HY97.status = "removed"
        → carX773HY97.fee ≠ none ∧ carX773HY97.end_ ≠ none) :=
  C3_fields_absent_iff_parked PARKED_CARS ReachableState.init
    ("X773HY97", carX773HY97) (by simp [PARKED_CARS])

/-- Counterexample to claim C4 as stated: ending the session of the seeded
car `X773HY97` (stored at slot 7) with a request body whose `location` is 3
succeeds and stores `location = 3`, so a successful `end_session` does
change the session's slot, and with it the occupancy derived from the
records: slot 7 reads occupied before the call and free after it. -/
theorem C4_counterexample_body_location_overwrites :
    remove_car PARKED_CARS "X773HY97" { location := 3 }
        (startX773HY97 + 1800 * usPerSec)
      = .ok ([("X773HY97",
               { status := "removed", tariff := some TariffName.hourly,
                 location := 3, start := .pyDt startX773HY97,
                 end_ := some (startX773HY97 + 1800 * usPerSec), fee := some 2 }),
              ("G737TT97", carG737TT97)],
             { status := "removed", tariff := some TariffName.hourly, location := 3,
               start := .pyDt startX773HY97,
               end_ := some (startX773HY97 + 1800 * usPerSec), fee := some 2 })
    ∧ carX773HY97.location = 7
    ∧ occupiedLoc PARKED_CARS 7 = true
    ∧ occupiedLoc [("X773HY97",
        { status := "removed", tariff := some TariffName.hourly, location := 3,
          start := .pyDt startX773HY97,
          end_ := some (startX773HY97 + 1800 * usPerSec), fee := some 2 }),
        ("G737TT97", carG737TT97)] 7 = false := by
  decide

/-- Claim C4 as amended.  A successful `end_session` sets `state` to
removed, `departure_time` to `now` and the fee from the stored tariff and
arrival; the tariff and the arrival instant are unchanged, but the stored
`location` is overwritten with the `location` field of the request body
(so it is preserved exactly when the body repeats the stored slot), and the
table entries of all other vehicles are untouched. -/
theorem C4_end_session_effect (cars : ParkingState) (cid : String)
    (pc : ParkedCar) (now : ℤ) (cars' : ParkingState) (r entry : CarRecord)
    (hok : remove_car cars cid pc now = .ok (cars', r))
    (hentry : cars.lookup cid = some entry) :
    r.status = "removed" ∧ r.end_ = some now
    ∧ r.tariff = entry.tariff
    ∧ r.start.instant = entry.start.instant
    ∧ r.fee = get_exit_fee entry.start.instant now entry.tariff
    ∧ r.location = pc.location
    ∧ cars'.lookup cid = some r
    ∧ (∀ k, k ≠ cid → cars'.lookup k = cars.lookup k) := by
  rcases remove_car_ok hok with ⟨entry', strt, hl, _hst, hstart, hr, hcars⟩
  rw [hentry] at hl
  injection hl with he
  subst he
  subst hr
  subst hcars
  exact ⟨rfl, rfl, rfl, by simp [hstart, StartVal.instant],
    by simp [hstart, StartVal.instant],
    rfl, lookup_dictSet_self _ _ _, fun k hk => lookup_dictSet_ne _ _ _ _ hk⟩

/-- Witness for C4: ending the seeded session `X773HY97` with a body that
repeats slot 7, at `now` equal to the stored arrival. -/
theorem C4_end_session_effect_witness :
    ({ status := "removed", tariff := some TariffName.hourly, location := 7,
       start := StartVal.pyDt startX773HY97, end_ := some startX773HY97,
       fee := some 0 } : CarRecord).tariff = carX773HY97.tariff
    ∧ ({ status := "removed", tariff := some TariffName.hourly, location := 7,
         start := StartVal.pyDt startX773HY97, end_ := some startX773HY97,
         fee := some 0 } : CarRecord).location
        = ({ location := 7 } : ParkedCar).location :=
  ⟨(C4_end_session_effect PARKED_CARS "X773HY97" { location := 7 } startX773HY97
      [("X773HY97",
        { status := "removed", tariff := some TariffName.hourly, location := 7,
          start := StartVal.pyDt startX773HY97, end_ := some startX773HY97,
          fee := some 0 }),
       ("G737TT97", carG737TT97)]
      { status := "removed", tariff := some TariffName.hourly, location := 7,
        start := StartVal.pyDt startX773HY97, end_ := some startX773HY97,
        fee := some 0 }
      carX773HY97 (by decide) (by decide)).2.2.1,
   (C4_end_session_effect PARKED_CARS "X773HY97" { location := 7 } startX773HY97
      [("X773HY97",
        { status := "removed", tariff := some TariffName.hourly, location := 7,
          start := StartVal.pyDt startX773HY97, end_ := some startX773HY97,
          fee := some 0 }),
       ("G737TT97", carG737TT97)]
      { status := "removed", tariff := some TariffName.hourly, location := 7,
        start := StartVal.pyDt startX773HY97, end_ := some startX773HY97,
        fee := some 0 }
      carX773HY97 (by decide) (by decide)).2.2.2.2.2.1⟩

/-- Counterexample to claim C5 as stated: an arrival one billion seconds in
the FUTURE passes the time-window check (`present - start` is negative, so
never greater than 900), and session creation succeeds; it is not rejected
with `InvalidArrivalTime`. -/
theorem C5_counterexample_future_arrival_accepted :
    add_car PARKED_CARS
        { car_id := some "ZZ9", tariff := some TariffName.hourly, location := 3,
          start := some (1656200000000000 + 1000000000 * usPerSec) }
        1656200000000000
      = .ok (PARKED_CARS ++
               [("ZZ9",
                 { status := "parked", tariff := some TariffName.hourly,
                   location := 3,
                   start := .pyDt (1656200000000000 + 1000000000 * usPerSec),
                   end_ := none, fee := none })],
             { status := "parked", tariff := some TariffName.hourly, location := 3,
               start := .pyDt (1656200000000000 + 1000000000 * usPerSec),
               end_ := none, fee := none }) := by
  decide

/-- Claim C5 as amended.  With the earlier checks passing, `start_session`
fails with `InvalidArrivalTime` exactly when `now - arrival_time` exceeds
`ACCEPTED_DELAY` (900 s); arrivals within the past window are not
time-rejected, and any arrival at or after `now` — arbitrarily far in the
future — passes the time check. -/
theorem C5_time_window (cars : ParkingState) (pc : ParkedCar) (present sd : ℤ)
    (cid : String) (hcid : pc.car_id = some cid)
    (hloc : ¬(pc.location ≤ 0 ∨ pc.location > PARKING_LOT_CAPACITY))
    (hocc : occupiedLoc cars pc.location = false)
    (hsd : pc.start = some sd) :
    (add_car cars pc present = .error .startDate
       ↔ present - sd > ACCEPTED_TIME_DELAY * usPerSec)
    ∧ (present ≤ sd → add_car cars pc present ≠ .error .startDate) := by
  have hiff : add_car cars pc present = .error .startDate
      ↔ present - sd > ACCEPTED_TIME_DELAY * usPerSec := by
    constructor
    · intro h
      by_contra ht
      by_cases hdup : (cars.lookup cid).isSome
      · rw [add_car_eq_carIdExists hcid hloc hocc hsd ht hdup] at h
        simp at h
      · rw [Bool.not_eq_true] at hdup
        cases hplate : plateFullmatch cid with
        | false =>
          rw [add_car_eq_carIdPattern hcid hloc hocc hsd ht hdup hplate] at h
          simp at h
        | true =>
          rw [add_car_eq_ok hcid hloc hocc hsd ht hdup hplate] at h
          simp at h
    · exact add_car_eq_startDate hcid hloc hocc hsd
  refine ⟨hiff, fun hfut h => ?_⟩
  have hgt := hiff.1 h
  have hA : ACCEPTED_TIME_DELAY * usPerSec = 900000000 := by decide
  omega

/-- Witness for C5: an arrival 1000 seconds in the past, outside the 900 s
window, is rejected with the arrival-time error. -/
theorem C5_time_window_witness :
    add_car PARKED_CARS
        { car_id := some "YY7", tariff := some TariffName.hourly, location := 3,
          start := some 0 } 1000000000
      = .error ApiErr.startDate :=
  ((C5_time_window PARKED_CARS
      { car_id := some "YY7", tariff := some TariffName.hourly, location := 3,
        start := some 0 } 1000000000 0 "YY7" rfl (by decide) (by decide) rfl).1).mpr
    (by decide)

/-- Claim C6.  Given a present vehicle id, `start_session` fails with
`InvalidSlot` exactly when the requested slot lies outside `[1, CAPACITY]`
with `CAPACITY = 14`; every slot inside the range — 14 included — passes the
slot-validity check and can only fail a later check.  (Raises happen before
any mutation, so a rejected call leaves the table unchanged — in this
functional embedding an error result carries no new state at all.) -/
theorem C6_invalid_slot_iff (cars : ParkingState) (pc : ParkedCar)
    (present : ℤ) (cid : String) (hcid : pc.car_id = some cid) :
    add_car cars pc present = .error .invalidLocation
      ↔ (pc.location < 1 ∨ PARKING_LOT_CAPACITY < pc.location) := by
  have hcap : PARKING_LOT_CAPACITY = 14 := rfl
  constructor
  · intro h
    by_contra hbad
    have hloc : ¬(pc.location ≤ 0 ∨ pc.location > PARKING_LOT_CAPACITY) := by omega
    rcases add_car_classify hcid hloc with h1 | h1 | h1 | h1 | h1 | ⟨c', r', h1⟩ <;>
      rw [h1] at h <;> simp at h
  · intro hbad
    exact add_car_eq_invalidLocation hcid (by omega)

/-- Witness for C6: slot 0 on the seeded state is rejected with the
invalid-slot error. -/
theorem C6_invalid_slot_iff_witness :
    add_car PARKED_CARS
        { car_id := some "AAA1", tariff := some TariffName.hourly, location := 0,
          start := some 0 } 0
      = .error ApiErr.invalidLocation :=
  (C6_invalid_slot_iff PARKED_CARS
      { car_id := some "AAA1", tariff := some TariffName.hourly, location := 0,
        start := some 0 } 0 "AAA1" rfl).mpr (by decide)

/-- Claim C7.  `get_car` on an unknown vehicle id evaluates
`PARKED_CARS[car_id]` directly and so raises a bare `KeyError`, which has no
registered exception handler — an unhandled crash, not the typed
`UnknownIdentifier` the spec promises; the typed error
(`CarIdDoesNotExistException`, here `carIdDoesNotExist`) exists and is
handled, but `get_car` does not use it.  For a known id the stored record is
returned. -/
theorem C7_get_session_crashes_on_unknown_id :
    get_car PARKED_CARS "NOPE" = .error ApiErr.keyError
    ∧ ApiErr.handled ApiErr.keyError = false
    ∧ ApiErr.handled ApiErr.carIdDoesNotExist = true
    ∧ get_car PARKED_CARS "X773HY97" = .ok carX773HY97 := by
  decide

/-- Claim C8.  For a departure strictly before the arrival the elapsed time
is negative, hence below the 900 s grace threshold, and `get_exit_fee`
silently returns fee 0 for every tariff value — no error is raised.  (The
claim says the computation rejects such input; this theorem evaluates the
code and shows it returns 0 instead.) -/
theorem C8_negative_elapsed_returns_zero (s e : ℤ) (tf : Option TariffName)
    (h : e < s) : get_exit_fee s e tf = some 0 := by
  have hlt : e - s < FREE_PARKING_TIME * usPerSec := by
    have hF : FREE_PARKING_TIME * usPerSec = 900000000 := by decide
    omega
  unfold get_exit_fee
  rw [if_pos hlt]

/-- Witness for C8: departure 1000 s before arrival yields fee 0. -/
theorem C8_negative_elapsed_returns_zero_witness :
    (0 : ℤ) < 1000 * usPerSec
    ∧ get_exit_fee (1000 * usPerSec) 0 (some TariffName.hourly) = some 0 :=
  ⟨by decide,
   C8_negative_elapsed_returns_zero (1000 * usPerSec) 0 (some TariffName.hourly)
     (by decide)⟩

/-- Counterexample to claim C9 as stated: an empty vehicle id with otherwise
valid arguments is rejected by the final format check with
`MalformedIdentifier` (`carIdPattern`), not by the presence check with
`EmptyIdentifier` (`carIdNull`) — `"" is None` is false in the code. -/
theorem C9_counterexample_empty_id_gets_pattern_error :
    add_car PARKED_CARS
        { car_id := some "", tariff := some TariffName.hourly, location := 3,
          start := some 0 } 0
      = .error ApiErr.carIdPattern
    ∧ ApiErr.carIdPattern ≠ ApiErr.carIdNull := by
  decide

/-- Claim C9 as amended.  The checks run in the source order — identity
presence, slot validity, slot availability, time window, identity
uniqueness, identity format — and the first failing check determines the
error; but the presence check only catches an ABSENT (`None`) vehicle id:
the empty string passes it (`some "" ≠ none`), fails the format pattern
(`[A-Za-z0-9]+` needs at least one character), and is therefore reported as
`MalformedIdentifier` when the intermediate checks pass. -/
theorem C9_check_order (cars : ParkingState) (pc : ParkedCar) (present : ℤ) :
    (pc.car_id = none → add_car cars pc present = .error .carIdNull)
    ∧ (∀ cid, pc.car_id = some cid →
        (pc.location ≤ 0 ∨ pc.location > PARKING_LOT_CAPACITY) →
        add_car cars pc present = .error .invalidLocation)
    ∧ (∀ cid, pc.car_id = some cid →
        ¬(pc.location ≤ 0 ∨ pc.location > PARKING_LOT_CAPACITY) →
        occupiedLoc cars pc.location = true →
        add_car cars pc present = .error .locationNotAvailable)
    ∧ (∀ cid sd, pc.car_id = some cid →
        ¬(pc.location ≤ 0 ∨ pc.location > PARKING_LOT_CAPACITY) →
        occupiedLoc cars pc.location = false → pc.start = some sd →
        present - sd > ACCEPTED_TIME_DELAY * usPerSec →
        add_car cars pc present = .error .startDate)
    ∧ (∀ cid sd, pc.car_id = some cid →
        ¬(pc.location ≤ 0 ∨ pc.location > PARKING_LOT_CAPACITY) →
        occupiedLoc cars pc.location = false → pc.start = some sd →
        ¬ present - sd > ACCEPTED_TIME_DELAY * usPerSec →
        (cars.lookup cid).isSome = true →
        add_car cars pc present = .error .carIdExists)
    ∧ (∀ cid sd, pc.car_id = some cid →
        ¬(pc.location ≤ 0 ∨ pc.location > PARKING_LOT_CAPACITY) →
        occupiedLoc cars pc.location = false → pc.start = some sd →
        ¬ present - sd > ACCEPTED_TIME_DELAY * usPerSec →
        (cars.lookup cid).isSome = false →
        plateFullmatch cid = false →
        add_car cars pc present = .error .carIdPattern)
    ∧ plateFullmatch "" = false
    ∧ some "" ≠ (none : Option String) :=
  ⟨fun hnone => add_car_eq_carIdNull hnone,
   fun _cid hcid hloc => add_car_eq_invalidLocation hcid hloc,
   fun _cid hcid hloc hocc => add_car_eq_locationNotAvailable hcid hloc hocc,
   fun _cid _sd hcid hloc hocc hsd ht =>
     add_car_eq_startDate hcid hloc hocc hsd ht,
   fun _cid _sd hcid hloc hocc hsd ht hdup =>
     add_car_eq_carIdExists hcid hloc hocc hsd ht hdup,
   fun _cid _sd hcid hloc hocc hsd ht hdup hplate =>
     add_car_eq_carIdPattern hcid hloc hocc hsd ht hdup hplate,
   by decide, by decide⟩

/-- Witness for C9: a request without a vehicle id (the `None` default) is
rejected by the presence check. -/
theorem C9_check_order_witness :
    add_car PARKED_CARS { location := 3 } 0 = .error ApiErr.carIdNull :=
  (C9_check_order PARKED_CARS { location := 3 } 0).1 rfl

/-- Claim C10.  The seeded table is not empty: before any operation it holds
the two parked sessions `X773HY97` (hourly, slot 7) and `G737TT97` (daily,
slot 14), so listing returns exactly those two records; on the seeded state
a start targeting slot 7 or 14 fails with the slot-unavailable error, and a
start reusing either seeded plate (with a free valid slot and an in-window
arrival) fails with the duplicate-identifier error. -/
theorem C10_seeded_initial_state :
    get_cars PARKED_CARS = [("X773HY97", carX773HY97), ("G737TT97", carG737TT97)]
    ∧ (get_cars PARKED_CARS).length = 2
    ∧ carX773HY97.status = "parked"
    ∧ carX773HY97.tariff = some TariffName.hourly
    ∧ carX773HY97.location = 7
    ∧ carG737TT97.status = "parked"
    ∧ carG737TT97.tariff = some TariffName.daily
    ∧ carG737TT97.location = 14
    ∧ (∀ (pc : ParkedCar) (present : ℤ) (cid : String),
        pc.car_id = some cid → (pc.location = 7 ∨ pc.location = 14) →
        add_car PARKED_CARS pc present = .error .locationNotAvailable)
    ∧ (∀ (pc : ParkedCar) (present sd : ℤ),
        (pc.car_id = some "X773HY97" ∨ pc.car_id = some "G737TT97") →
        ¬(pc.location ≤ 0 ∨ pc.location > PARKING_LOT_CAPACITY) →
        occupiedLoc PARKED_CARS pc.location = false →
        pc.start = some sd →
        ¬ present - sd > ACCEPTED_TIME_DELAY * usPerSec →
        add_car PARKED_CARS pc present = .error .carIdExists) := by
  refine ⟨rfl, rfl, rfl, rfl, rfl, rfl, rfl, rfl, ?_, ?_⟩
  · intro pc present cid hcid hloc
    have hcap : PARKING_LOT_CAPACITY = 14 := rfl
    have hl : ¬(pc.location ≤ 0 ∨ pc.location > PARKING_LOT_CAPACITY) := by
      rcases hloc with h | h <;> omega
    have hocc : occupiedLoc PARKED_CARS pc.location = true := by
      rcases hloc with h | h <;> rw [h] <;> decide
    exact add_car_eq_locationNotAvailable hcid hl hocc
  · intro pc present sd hid hl hocc hsd ht
    rcases hid with h | h
    · exact add_car_eq_carIdExists h hl hocc hsd ht (by decide)
    · exact add_car_eq_carIdExists h hl hocc hsd ht (by decide)

/-- Witness for C10: starting a fresh plate at slot 7 of the seeded state is
rejected because the seeded car `X773HY97` occupies it. -/
theorem C10_seeded_initial_state_witness :
    add_car PARKED_CARS
        { car_id := some "NEW1", tariff := some TariffName.hourly, location := 7,
          start := some 0 } 0
      = .error ApiErr.locationNotAvailable :=
  C10_seeded_initial_state.2.2.2.2.2.2.2.2.1
    { car_id := some "NEW1", tariff := some TariffName.hourly, location := 7,
      start := some 0 } 0 "NEW1" rfl (Or.inl rfl)
